import Mathlib

/-!
Shallow embedding of the type-erasure shape repository
(src/type-erasure/shape.h, circle.h, square.h, main.cpp).

Modelling choices:
- The C++ double attribute is modelled as a rational number; the driver
  literals 2.0, 1.5, 4.2 appear as the rationals 2, 3/2, 21/5.
- Console output is modelled as a list of structured output lines.
- The erased holder hierarchy (ShapeConcept / ShapeModel<T> /
  ExtendedModel<ShapeT, DrawStrategy>) is one inductive type whose
  constructors carry the stored value, the free-function table the model
  routes to, and (for the extended model) the injected draw strategy.
- Ownership is modelled explicitly: holders live in a heap indexed by
  natural-number addresses, and a Shape owns an optional address
  (none models a null unique_ptr, as after a move).
-/

namespace TypeErasure

/-- One line of console output.  Modelled from the spec: the definitions of
operator<<, serialize and draw for Circle and Square are declared in
circle.h / square.h but their translation units are not under src; per the
spec each output line deterministically reflects the shape kind and its
attribute value, so lines are modelled as constructor-tagged values
carrying the attribute. -/
inductive OutLine : Type where
  | circlePrint (radius : ℚ)
  | squarePrint (width : ℚ)
  | circleSerializeLine (radius : ℚ)
  | circleDrawLine (radius : ℚ)
  | squareSerializeLine (width : ℚ)
  | squareDrawLine (width : ℚ)
  | diCircleLambdaLine (radius : ℚ)
  | headerDrawing
  | headerSerializing
deriving DecidableEq

/-- Circle from circle.h: a plain value type with one attribute. -/
structure Circle : Type where
  radius_ : ℚ
deriving DecidableEq

/-- Square from square.h: a plain value type with one attribute. -/
structure Square : Type where
  width_ : ℚ
deriving DecidableEq

/-- Modelled from the spec: the body of operator<<(std::ostream, const Circle)
is missing from src; it renders the type name and attribute. -/
def printCircle (c : Circle) : OutLine := OutLine.circlePrint c.radius_

/-- Modelled from the spec: the body of serialize(const Circle) is missing
from src; it writes a line reflecting the type and attribute. -/
def serializeCircle (c : Circle) : List OutLine :=
  [OutLine.circleSerializeLine c.radius_]

/-- Modelled from the spec: the body of draw(const Circle) is missing from
src; it writes a line reflecting the literal attribute drawn. -/
def drawCircle (c : Circle) : List OutLine :=
  [OutLine.circleDrawLine c.radius_]

/-- Modelled from the spec: the body of operator<<(std::ostream, const Square)
is missing from src. -/
def printSquare (s : Square) : OutLine := OutLine.squarePrint s.width_

/-- Modelled from the spec: the body of serialize(const Square) is missing
from src. -/
def serializeSquare (s : Square) : List OutLine :=
  [OutLine.squareSerializeLine s.width_]

/-- Modelled from the spec: the body of draw(const Square) is missing from
src. -/
def drawSquare (s : Square) : List OutLine :=
  [OutLine.squareDrawLine s.width_]

/-- The free-function table a concrete type T supplies to satisfy the
IsShape concept (shape.h lines 49-57): free serialize, free draw, and
stream output. ShapeModel<T> routes its virtuals to these. -/
structure ShapeOps (T : Type) : Type where
  serialize : T → List OutLine
  draw : T → List OutLine
  print : T → OutLine

/-- The table Circle supplies (declarations in circle.h). -/
def circleShapeOps : ShapeOps Circle :=
  ⟨serializeCircle, drawCircle, printCircle⟩

/-- The table Square supplies (declarations in square.h). -/
def squareShapeOps : ShapeOps Square :=
  ⟨serializeSquare, drawSquare, printSquare⟩

/-- The erased holder: ShapeConcept with its two implementations
(shape.h lines 78-180). shapeModel is ShapeModel<T>, storing one value
object_ and routing serialize/draw/print to the free functions for T.
extendedModel is ExtendedModel<ShapeT, DrawStrategy>, storing shape_ and
the injected drawer_; it routes serialize and print to the free functions
but draw to drawer_.  The extended model never touches the free draw, so
it only carries the serialize and print entries it instantiates. -/
inductive ShapeConcept : Type 1 where
  | shapeModel {T : Type} (ops : ShapeOps T) (object_ : T) : ShapeConcept
  | extendedModel {ShapeT : Type} (serializeFn : ShapeT → List OutLine)
      (printFn : ShapeT → OutLine) (shape_ : ShapeT)
      (drawer_ : ShapeT → List OutLine) : ShapeConcept

/-- Output of ShapeConcept::serialize (shape.h lines 110-119 and 158-162):
both models call the free serialize on the stored value. -/
def ShapeConcept.serializeOut : ShapeConcept → List OutLine
  | .shapeModel ops o => ops.serialize o
  | .extendedModel sFn _ s _ => sFn s

/-- Output of ShapeConcept::draw (shape.h lines 121-126 and 164-167):
the plain model calls the free draw; the extended model calls drawer_. -/
def ShapeConcept.drawOut : ShapeConcept → List OutLine
  | .shapeModel ops o => ops.draw o
  | .extendedModel _ _ s d => d s

/-- Output of ShapeConcept::print (shape.h lines 128-131 and 169-172):
both models stream the stored value. -/
def ShapeConcept.printOut : ShapeConcept → OutLine
  | .shapeModel ops o => ops.print o
  | .extendedModel _ pFn s _ => pFn s

/-- ShapeConcept::clone (shape.h lines 134-137 and 175-178): each model
copy-constructs a fresh holder of the same dynamic type from its own
fields. -/
def ShapeConcept.clone : ShapeConcept → ShapeConcept
  | .shapeModel ops o => .shapeModel ops o
  | .extendedModel sFn pFn s d => .extendedModel sFn pFn s d

/-- The dynamic type of a holder: which model backs it. -/
inductive ModelKind : Type where
  | plain
  | extended
deriving DecidableEq

/-- Dynamic-type tag of a holder. -/
def ShapeConcept.kind : ShapeConcept → ModelKind
  | .shapeModel _ _ => ModelKind.plain
  | .extendedModel _ _ _ _ => ModelKind.extended

/-- serialize() const run as a state transformer: it produces its output
and leaves every field of the holder as it found it (the method body in
shape.h only reads object_ resp. shape_). -/
def ShapeConcept.serializeRun : ShapeConcept → List OutLine × ShapeConcept
  | .shapeModel ops o => (ops.serialize o, .shapeModel ops o)
  | .extendedModel sFn pFn s d => (sFn s, .extendedModel sFn pFn s d)

/-- draw() const run as a state transformer. -/
def ShapeConcept.drawRun : ShapeConcept → List OutLine × ShapeConcept
  | .shapeModel ops o => (ops.draw o, .shapeModel ops o)
  | .extendedModel sFn pFn s d => (d s, .extendedModel sFn pFn s d)

/-- print() const run as a state transformer. -/
def ShapeConcept.printRun : ShapeConcept → OutLine × ShapeConcept
  | .shapeModel ops o => (ops.print o, .shapeModel ops o)
  | .extendedModel sFn pFn s d => (pFn s, .extendedModel sFn pFn s d)

/-- clone() const run as a state transformer: the fresh holder plus the
unchanged original. -/
def ShapeConcept.cloneRun : ShapeConcept → ShapeConcept × ShapeConcept
  | .shapeModel ops o => (ShapeConcept.clone (.shapeModel ops o), .shapeModel ops o)
  | .extendedModel sFn pFn s d =>
      (ShapeConcept.clone (.extendedModel sFn pFn s d), .extendedModel sFn pFn s d)

/-- The heap of dynamically allocated holders: a bump allocator over
natural-number addresses. -/
structure Heap : Type 1 where
  next : Nat
  mem : Nat → Option ShapeConcept

/-- The empty heap. -/
def Heap.empty : Heap := ⟨0, fun _ => none⟩

/-- make_unique: allocate a holder at a fresh address. -/
def Heap.alloc (H : Heap) (v : ShapeConcept) : Nat × Heap :=
  (H.next, ⟨H.next + 1, fun a => if a = H.next then some v else H.mem a⟩)

/-- unique_ptr release: deallocate the holder at an address. -/
def Heap.free (H : Heap) (a : Nat) : Heap :=
  ⟨H.next, fun x => if x = a then none else H.mem x⟩

/-- Heap well-formedness: no holder lives at or beyond the bump pointer. -/
def Heap.wf (H : Heap) : Prop := ∀ a, H.next ≤ a → H.mem a = none

/-- The public wrapper (shape.h lines 59-221): it owns one holder through
pimpl_. none models a null unique_ptr, the state a moved-from Shape is
left in. -/
structure Shape : Type where
  pimpl_ : Option Nat

/-- The constructor template Shape(const T&) with the IsShape constraint
(shape.h lines 187-192): installs a plain ShapeModel<T>.  The ops table is
the capability evidence the IsShape concept demands. -/
def Shape.ctor1 {T : Type} (ops : ShapeOps T) (x : T) (H : Heap) :
    Shape × Heap :=
  let p := H.alloc (ShapeConcept.shapeModel ops x)
  (⟨some p.1⟩, p.2)

/-- The constructor Shape(ShapeT, DrawStrategy) (shape.h lines 194-198):
installs an ExtendedModel.  It declares no IsShape constraint; it only
needs the serialize and stream-output functions its model instantiates,
plus the drawer. -/
def Shape.ctor2 {ShapeT : Type} (serializeFn : ShapeT → List OutLine)
    (printFn : ShapeT → OutLine) (shape : ShapeT)
    (drawer : ShapeT → List OutLine) (H : Heap) : Shape × Heap :=
  let p := H.alloc (ShapeConcept.extendedModel serializeFn printFn shape drawer)
  (⟨some p.1⟩, p.2)

/-- Copy constructor Shape(const Shape&) (shape.h lines 200-203):
dereferences the source holder and installs its clone at a fresh address.
none models the undefined behaviour of copying from a null pimpl_. -/
def Shape.copyCtor (s : Shape) (H : Heap) : Option (Shape × Heap) :=
  match s.pimpl_ with
  | none => none
  | some a =>
    match H.mem a with
    | none => none
    | some h =>
      let p := H.alloc h.clone
      some (⟨some p.1⟩, p.2)

/-- Move constructor Shape(Shape&&) (shape.h lines 205-208): the
destination takes the source pointer, the source is left null. -/
def Shape.moveCtor (s : Shape) : Shape × Shape :=
  (⟨s.pimpl_⟩, ⟨none⟩)

/-- Copy assignment operator=(const Shape&) (shape.h lines 210-214):
the clone of the source holder is built first, then assigning it to
pimpl_ releases the destination old holder. -/
def Shape.copyAssign (self other : Shape) (H : Heap) :
    Option (Shape × Heap) :=
  match other.pimpl_ with
  | none => none
  | some a =>
    match H.mem a with
    | none => none
    | some h =>
      let p := H.alloc h.clone
      let H3 := match self.pimpl_ with
        | some aOld => p.2.free aOld
        | none => p.2
      some (⟨some p.1⟩, H3)

/-- Move assignment operator=(Shape&&) (shape.h lines 216-220): the
destination old holder is released, the source pointer transfers, the
source is left null.  Returns (destination, source, heap). -/
def Shape.moveAssign (self other : Shape) (H : Heap) :
    Shape × Shape × Heap :=
  let H2 := match self.pimpl_ with
    | some aOld => H.free aOld
    | none => H
  (⟨other.pimpl_⟩, ⟨none⟩, H2)

/-- Destructor ~Shape: the owned holder is released. -/
def Shape.destroy (s : Shape) (H : Heap) : Heap :=
  match s.pimpl_ with
  | some a => H.free a
  | none => H

/-- The free function draw<Shape> (shape.h lines 223-227): dereferences
pimpl_ and calls the holder draw.  none models the null dereference. -/
def Shape.drawOut (s : Shape) (H : Heap) : Option (List OutLine) :=
  match s.pimpl_ with
  | none => none
  | some a => (H.mem a).map ShapeConcept.drawOut

/-- The free function serialize<Shape> (shape.h lines 229-233). -/
def Shape.serializeOut (s : Shape) (H : Heap) : Option (List OutLine) :=
  match s.pimpl_ with
  | none => none
  | some a => (H.mem a).map ShapeConcept.serializeOut

/-- operator<<(std::ostream, const Shape) (shape.h lines 72-75):
delegates to the holder print. -/
def Shape.printOut (s : Shape) (H : Heap) : Option OutLine :=
  match s.pimpl_ with
  | none => none
  | some a => (H.mem a).map ShapeConcept.printOut

/-- Capability profile of a candidate concrete type: whether it supplies
the free serialize, the free draw, and stream output. -/
structure TypeCaps : Type where
  hasSerialize : Bool
  hasDraw : Bool
  hasStreamOut : Bool
deriving DecidableEq

/-- The IsShape concept (shape.h lines 49-57): requires free serialize,
free draw and stream output. -/
def IsShape (c : TypeCaps) : Bool :=
  c.hasSerialize && c.hasDraw && c.hasStreamOut

/-- The constraint declared by the single-argument constructor
template <IsShape T> Shape(const T&) (shape.h line 187). -/
def singleCtorConstraint (c : TypeCaps) : Bool := IsShape c

/-- The constraint declared by the two-argument constructor
template <typename ShapeT, typename DrawStrategy> Shape(ShapeT, DrawStrategy)
(shape.h line 194): it is an unconstrained template. -/
def extendedCtorConstraint (_c : TypeCaps) : Bool := true

/-- The drawing lambda injected in main.cpp lines 301-305: it prints its
own text together with the circle streamed into it. -/
def mainDiLambda (c : Circle) : List OutLine :=
  [OutLine.diCircleLambdaLine c.radius_]

/-- The shapes vector built by main.cpp lines 298-305:
Circle 2.0 and Square 1.5 through the plain constructor, then Circle 4.2
with the injected lambda through the two-argument constructor. -/
def mainShapes : List Shape × Heap :=
  let p1 := Shape.ctor1 circleShapeOps (Circle.mk 2) Heap.empty
  let p2 := Shape.ctor1 squareShapeOps (Square.mk (3 / 2)) p1.2
  let p3 := Shape.ctor2 serializeCircle printCircle (Circle.mk (21 / 5))
      mainDiLambda p2.2
  ([p1.1, p2.1, p3.1], p3.2)

/-- One for_each pass over the sequence, in order, collecting the output
of the given operation on every element. -/
def pass (f : Shape → Heap → Option (List OutLine)) :
    List Shape → Heap → Option (List OutLine)
  | [], _ => some []
  | s :: rest, H =>
    match f s H, pass f rest H with
    | some o, some os => some (o ++ os)
    | _, _ => none

/-- The full console output of main (main.cpp lines 294-318): the drawing
header, the draw pass in sequence order, the serializing header, the
serialize pass in sequence order. -/
def mainOutput : Option (List OutLine) :=
  match pass Shape.drawOut mainShapes.1 mainShapes.2,
      pass Shape.serializeOut mainShapes.1 mainShapes.2 with
  | some d, some s =>
      some ((OutLine.headerDrawing :: d) ++ (OutLine.headerSerializing :: s))
  | _, _ => none

/-- A sample holder: the plain model over Circle 2, as installed by the
single-argument constructor. -/
def hCircle2 : ShapeConcept := ShapeConcept.shapeModel circleShapeOps (Circle.mk 2)

/-- A sample heap holding hCircle2 at address 0. -/
def heap1 : Heap := (Heap.empty.alloc hCircle2).2

/-- The Shape owning address 0. -/
def shape0 : Shape := ⟨some 0⟩

/-- C1: drawing and serializing a Shape built from a Circle or a Square by
the plain single-argument constructor produces exactly the output of the
free draw resp. serialize applied directly to the value. -/
theorem c1_wrapper_agrees_with_free_functions :
    (∀ (v : Circle) (H : Heap),
      (Shape.ctor1 circleShapeOps v H).1.drawOut (Shape.ctor1 circleShapeOps v H).2
          = some (drawCircle v)
      ∧ (Shape.ctor1 circleShapeOps v H).1.serializeOut (Shape.ctor1 circleShapeOps v H).2
          = some (serializeCircle v))
    ∧ (∀ (v : Square) (H : Heap),
      (Shape.ctor1 squareShapeOps v H).1.drawOut (Shape.ctor1 squareShapeOps v H).2
          = some (drawSquare v)
      ∧ (Shape.ctor1 squareShapeOps v H).1.serializeOut (Shape.ctor1 squareShapeOps v H).2
          = some (serializeSquare v)) := by
  constructor
  · intro v H
    constructor
    · simp [Shape.ctor1, Shape.drawOut, Heap.alloc, ShapeConcept.drawOut,
        circleShapeOps]
    · simp [Shape.ctor1, Shape.serializeOut, Heap.alloc,
        ShapeConcept.serializeOut, circleShapeOps]
  · intro v H
    constructor
    · simp [Shape.ctor1, Shape.drawOut, Heap.alloc, ShapeConcept.drawOut,
        squareShapeOps]
    · simp [Shape.ctor1, Shape.serializeOut, Heap.alloc,
        ShapeConcept.serializeOut, squareShapeOps]

/-- C2: a Shape built by the two-argument constructor from a value and a
draw strategy draws by invoking the strategy on the value, while its
serialize output is still that of the free serialize on the value. -/
theorem c2_override_draw_serialize_unaffected {ShapeT : Type}
    (serializeFn : ShapeT → List OutLine) (printFn : ShapeT → OutLine)
    (v : ShapeT) (d : ShapeT → List OutLine) (H : Heap) :
    (Shape.ctor2 serializeFn printFn v d H).1.drawOut
        (Shape.ctor2 serializeFn printFn v d H).2 = some (d v)
    ∧ (Shape.ctor2 serializeFn printFn v d H).1.serializeOut
        (Shape.ctor2 serializeFn printFn v d H).2 = some (serializeFn v) := by
  constructor
  · simp [Shape.ctor2, Shape.drawOut, Heap.alloc, ShapeConcept.drawOut]
  · simp [Shape.ctor2, Shape.serializeOut, Heap.alloc,
      ShapeConcept.serializeOut]

/-- clone reproduces the holder exactly: same dynamic type, same stored
value, same stored strategy. -/
theorem ShapeConcept.clone_self (h : ShapeConcept) : h.clone = h := by
  cases h <;> rfl

/-- Under well-formedness, an allocated address lies below the bump
pointer. -/
theorem Heap.lt_next_of_mem {H : Heap} (hwf : H.wf) {a : Nat}
    {h : ShapeConcept} (hm : H.mem a = some h) : a < H.next := by
  by_contra hlt
  push_neg at hlt
  rw [hwf a hlt] at hm
  exact Option.noConfusion hm

/-- Allocation stores the holder at the fresh address. -/
theorem Heap.alloc_mem_fresh (H : Heap) (v : ShapeConcept) :
    (H.alloc v).2.mem (H.alloc v).1 = some v := by
  simp [Heap.alloc]

/-- Allocation leaves every other address alone. -/
theorem Heap.alloc_mem_other (H : Heap) (v : ShapeConcept) {a : Nat}
    (ha : a ≠ H.next) : (H.alloc v).2.mem a = H.mem a := by
  simp [Heap.alloc, ha]

/-- Deallocation leaves every other address alone. -/
theorem Heap.free_mem_other (H : Heap) {a b : Nat} (hab : a ≠ b) :
    (H.free b).mem a = H.mem a := by
  simp [Heap.free, hab]

/-- heap1 is well-formed. -/
theorem heap1_wf : heap1.wf := by
  intro a ha
  simp only [heap1, Heap.empty, Heap.alloc] at ha ⊢
  have h0 : a ≠ 0 := by omega
  simp [h0]

/-- C4 counterexample: a capability profile supplying none of serialize,
draw or stream output is accepted by the constraint the two-argument
constructor declares, while the IsShape capability requirement rejects it.
So not every public construction entry point checks the capability
requirement. -/
theorem c4_counterexample_two_arg_ctor_unconstrained :
    extendedCtorConstraint ⟨false, false, false⟩ = true
    ∧ IsShape ⟨false, false, false⟩ = false := by
  decide

/-- C4 amended: only the single-argument constructor checks the IsShape
capability requirement (serialize, draw, stream output) at wrapping time;
the two-argument behavior-override constructor is an unconstrained
template and declares no capability check. -/
theorem c4_amended_only_single_ctor_checks_capability :
    (∀ c : TypeCaps, singleCtorConstraint c = IsShape c)
    ∧ (∀ c : TypeCaps, extendedCtorConstraint c = true)
    ∧ (∀ c : TypeCaps,
        IsShape c = (c.hasSerialize && c.hasDraw && c.hasStreamOut)) :=
  ⟨fun _ => rfl, fun _ => rfl, fun _ => rfl⟩

/-- C5 counterexample: move-constructing from a freshly constructed Shape
leaves the source with a null holder, a reachable state without a valid
holder. -/
theorem c5_counterexample_moved_from_has_null_holder :
    (Shape.moveCtor
        (Shape.ctor1 circleShapeOps (Circle.mk 2) Heap.empty).1).2.pimpl_
      = none := rfl

/-- C5 amended: every constructor and copy operation installs a holder,
and move transfers the source holder to the destination, leaving the
source null; only the moved-from state lacks a holder. -/
theorem c5_amended_holder_installed_except_moved_from :
    (∀ (T : Type) (ops : ShapeOps T) (x : T) (H : Heap),
        ((Shape.ctor1 ops x H).1.pimpl_).isSome = true)
    ∧ (∀ (ShapeT : Type) (sFn : ShapeT → List OutLine)
        (pFn : ShapeT → OutLine) (x : ShapeT)
        (d : ShapeT → List OutLine) (H : Heap),
        ((Shape.ctor2 sFn pFn x d H).1.pimpl_).isSome = true)
    ∧ (∀ (s c : Shape) (H H2 : Heap),
        Shape.copyCtor s H = some (c, H2) → c.pimpl_.isSome = true)
    ∧ (∀ (dst src c : Shape) (H H2 : Heap),
        Shape.copyAssign dst src H = some (c, H2) → c.pimpl_.isSome = true)
    ∧ (∀ s : Shape, (Shape.moveCtor s).1.pimpl_ = s.pimpl_
        ∧ (Shape.moveCtor s).2.pimpl_ = none)
    ∧ (∀ (dst src : Shape) (H : Heap),
        (Shape.moveAssign dst src H).1.pimpl_ = src.pimpl_
        ∧ (Shape.moveAssign dst src H).2.1.pimpl_ = none) := by
  refine ⟨fun T ops x H => rfl, fun ShapeT sFn pFn x d H => rfl, ?_, ?_,
    fun s => ⟨rfl, rfl⟩, fun dst src H => ⟨rfl, rfl⟩⟩
  · intro s c H H2 hc
    cases hp : s.pimpl_ with
    | none => simp [Shape.copyCtor, hp] at hc
    | some a =>
      cases hm : H.mem a with
      | none => simp [Shape.copyCtor, hp, hm] at hc
      | some h =>
        simp only [Shape.copyCtor, hp, hm, Option.some.injEq,
          Prod.mk.injEq] at hc
        rw [← hc.1]
        rfl
  · intro dst src c H H2 hc
    cases hp : src.pimpl_ with
    | none => simp [Shape.copyAssign, hp] at hc
    | some a =>
      cases hm : H.mem a with
      | none => simp [Shape.copyAssign, hp, hm] at hc
      | some h =>
        simp only [Shape.copyAssign, hp, hm, Option.some.injEq,
          Prod.mk.injEq] at hc
        rw [← hc.1]
        rfl

/-- C5 amended witness: copy construction from the sample Shape at the
sample heap yields a Shape with a holder installed. -/
theorem c5_amended_witness :
    Shape.copyCtor shape0 heap1
        = some (⟨some 1⟩, (heap1.alloc hCircle2.clone).2)
    ∧ (Shape.mk (some 1)).pimpl_.isSome = true :=
  ⟨rfl, c5_amended_holder_installed_except_moved_from.2.2.1 shape0
      ⟨some 1⟩ heap1 (heap1.alloc hCircle2.clone).2 rfl⟩

/-- C8: the holder is immutable after construction: serialize, draw,
print and clone each leave every stored field unchanged, and clone
reproduces the same dynamic type with the same stored value and
strategy. -/
theorem c8_holder_never_mutates (h : ShapeConcept) :
    h.serializeRun.2 = h ∧ h.drawRun.2 = h ∧ h.printRun.2 = h
    ∧ h.cloneRun.2 = h ∧ h.clone = h ∧ h.clone.kind = h.kind := by
  cases h <;>
    simp [ShapeConcept.serializeRun, ShapeConcept.drawRun,
      ShapeConcept.printRun, ShapeConcept.cloneRun, ShapeConcept.clone,
      ShapeConcept.kind]

/-- C9: the modelled console output is a deterministic function of the
shape value: two equal values give identical output, the output
determines the attribute value, and output of a Circle is never output
of a Square (the text reflects the type). -/
theorem c9_output_deterministic_and_reflects_value :
    (∀ c₁ c₂ : Circle,
      (drawCircle c₁ = drawCircle c₂ ↔ c₁.radius_ = c₂.radius_)
      ∧ (serializeCircle c₁ = serializeCircle c₂ ↔ c₁.radius_ = c₂.radius_)
      ∧ (printCircle c₁ = printCircle c₂ ↔ c₁.radius_ = c₂.radius_))
    ∧ (∀ s₁ s₂ : Square,
      (drawSquare s₁ = drawSquare s₂ ↔ s₁.width_ = s₂.width_)
      ∧ (serializeSquare s₁ = serializeSquare s₂ ↔ s₁.width_ = s₂.width_)
      ∧ (printSquare s₁ = printSquare s₂ ↔ s₁.width_ = s₂.width_))
    ∧ (∀ (c : Circle) (s : Square),
      drawCircle c ≠ drawSquare s ∧ serializeCircle c ≠ serializeSquare s
      ∧ printCircle c ≠ printSquare s) := by
  refine ⟨fun c₁ c₂ => ?_, fun s₁ s₂ => ?_, fun c s => ?_⟩
  · simp [drawCircle, serializeCircle, printCircle]
  · simp [drawSquare, serializeSquare, printSquare]
  · simp [drawCircle, drawSquare, serializeCircle, serializeSquare,
      printCircle, printSquare]

/-- C9 witness: determinism at a concrete input: draw on Circle 2 gives
the same output as draw on Circle 2, and that output determines the
radius. -/
theorem c9_witness :
    drawCircle (Circle.mk 2) = drawCircle (Circle.mk 2)
      ↔ (Circle.mk 2).radius_ = (Circle.mk 2).radius_ :=
  (c9_output_deterministic_and_reflects_value.1 (Circle.mk 2)
      (Circle.mk 2)).1

/-- C6: the driver output is the drawing header, then the draw lines of
Circle 2.0, Square 1.5 and the injected lambda on Circle 4.2 in sequence
order, then the serializing header, then the serialize lines of the three
shapes in sequence order. -/
theorem c6_driver_two_passes_in_order :
    mainOutput = some
      [OutLine.headerDrawing, OutLine.circleDrawLine 2,
       OutLine.squareDrawLine (3 / 2), OutLine.diCircleLambdaLine (21 / 5),
       OutLine.headerSerializing, OutLine.circleSerializeLine 2,
       OutLine.squareSerializeLine (3 / 2),
       OutLine.circleSerializeLine (21 / 5)] := by
  rfl

/-- C3: copy construction and copy assignment install a fresh clone of the
source holder at a new address; the copy draw and serialize output equals
the original output at the time of copying (override included, since any
holder is covered), and destroying the original afterwards leaves the copy
output unchanged. -/
theorem c3_copy_deep_and_independent (orig : Shape) (H : Heap) (a : Nat)
    (h : ShapeConcept) (hwf : H.wf) (hp : orig.pimpl_ = some a)
    (hm : H.mem a = some h) :
    Shape.copyCtor orig H = some (⟨some H.next⟩, (H.alloc h.clone).2)
    ∧ orig.drawOut H = some h.drawOut
    ∧ orig.serializeOut H = some h.serializeOut
    ∧ (Shape.mk (some H.next)).drawOut (H.alloc h.clone).2 = some h.drawOut
    ∧ (Shape.mk (some H.next)).serializeOut (H.alloc h.clone).2
        = some h.serializeOut
    ∧ (Shape.mk (some H.next)).drawOut
        (Shape.destroy orig (H.alloc h.clone).2) = some h.drawOut
    ∧ (Shape.mk (some H.next)).serializeOut
        (Shape.destroy orig (H.alloc h.clone).2) = some h.serializeOut
    ∧ (∀ dst : Shape,
        (∀ aOld, dst.pimpl_ = some aOld → aOld ≠ a ∧ aOld < H.next) →
        ∃ H3, Shape.copyAssign dst orig H = some (⟨some H.next⟩, H3)
          ∧ (Shape.mk (some H.next)).drawOut H3 = some h.drawOut
          ∧ (Shape.mk (some H.next)).serializeOut H3 = some h.serializeOut
          ∧ (Shape.mk (some H.next)).drawOut (Shape.destroy orig H3)
              = some h.drawOut
          ∧ (Shape.mk (some H.next)).serializeOut (Shape.destroy orig H3)
              = some h.serializeOut) := by
  have haN : a < H.next := Heap.lt_next_of_mem hwf hm
  have hNa : H.next ≠ a := (Nat.ne_of_lt haN).symm
  refine ⟨?_, ?_, ?_, ?_, ?_, ?_, ?_, ?_⟩
  · simp [Shape.copyCtor, hp, hm, Heap.alloc]
  · simp [Shape.drawOut, hp, hm]
  · simp [Shape.serializeOut, hp, hm]
  · simp [Shape.drawOut, Heap.alloc, ShapeConcept.clone_self]
  · simp [Shape.serializeOut, Heap.alloc, ShapeConcept.clone_self]
  · simp [Shape.drawOut, Shape.destroy, hp, Heap.free, hNa, Heap.alloc,
      ShapeConcept.clone_self]
  · simp [Shape.serializeOut, Shape.destroy, hp, Heap.free, hNa, Heap.alloc,
      ShapeConcept.clone_self]
  · intro dst hdst
    cases hdp : dst.pimpl_ with
    | none =>
      refine ⟨(H.alloc h.clone).2, ?_, ?_, ?_, ?_, ?_⟩
      · simp [Shape.copyAssign, hp, hm, hdp, Heap.alloc]
      · simp [Shape.drawOut, Heap.alloc, ShapeConcept.clone_self]
      · simp [Shape.serializeOut, Heap.alloc, ShapeConcept.clone_self]
      · simp [Shape.drawOut, Shape.destroy, hp, Heap.free, hNa, Heap.alloc,
          ShapeConcept.clone_self]
      · simp [Shape.serializeOut, Shape.destroy, hp, Heap.free, hNa,
          Heap.alloc, ShapeConcept.clone_self]
    | some aOld =>
      obtain ⟨hne, hlt⟩ := hdst aOld hdp
      have hNOld : H.next ≠ aOld := (Nat.ne_of_lt hlt).symm
      refine ⟨((H.alloc h.clone).2).free aOld, ?_, ?_, ?_, ?_, ?_⟩
      · simp [Shape.copyAssign, hp, hm, hdp, Heap.alloc]
      · simp [Shape.drawOut, Heap.free, hNOld, Heap.alloc,
          ShapeConcept.clone_self]
      · simp [Shape.serializeOut, Heap.free, hNOld, Heap.alloc,
          ShapeConcept.clone_self]
      · simp [Shape.drawOut, Shape.destroy, hp, Heap.free, hNa, hNOld,
          Heap.alloc, ShapeConcept.clone_self]
      · simp [Shape.serializeOut, Shape.destroy, hp, Heap.free, hNa, hNOld,
          Heap.alloc, ShapeConcept.clone_self]

/-- C3 witness: the sample Shape over Circle 2 in the sample heap is
validly held, and its copy reproduces its draw output. -/
theorem c3_witness :
    shape0.drawOut heap1 = some hCircle2.drawOut
    ∧ Shape.copyCtor shape0 heap1
        = some (⟨some heap1.next⟩, (heap1.alloc hCircle2.clone).2) :=
  ⟨(c3_copy_deep_and_independent shape0 heap1 0 hCircle2 heap1_wf
      rfl rfl).2.1,
   (c3_copy_deep_and_independent shape0 heap1 0 hCircle2 heap1_wf
      rfl rfl).1⟩

/-- C7: the move-constructed destination produces exactly the draw,
serialize and stream output the source produced before the move, and so
does a move-assigned destination whose old holder is not the source
holder. -/
theorem c7_move_preserves_output (src : Shape) (H : Heap) :
    ((Shape.moveCtor src).1.drawOut H = src.drawOut H
     ∧ (Shape.moveCtor src).1.serializeOut H = src.serializeOut H
     ∧ (Shape.moveCtor src).1.printOut H = src.printOut H)
    ∧ (∀ (dst : Shape) (a : Nat), src.pimpl_ = some a →
        (∀ aOld, dst.pimpl_ = some aOld → aOld ≠ a) →
        ((Shape.moveAssign dst src H).1.drawOut
            (Shape.moveAssign dst src H).2.2 = src.drawOut H
         ∧ (Shape.moveAssign dst src H).1.serializeOut
            (Shape.moveAssign dst src H).2.2 = src.serializeOut H
         ∧ (Shape.moveAssign dst src H).1.printOut
            (Shape.moveAssign dst src H).2.2 = src.printOut H)) := by
  constructor
  · exact ⟨rfl, rfl, rfl⟩
  · intro dst a hsrc hold
    cases hdp : dst.pimpl_ with
    | none =>
      refine ⟨?_, ?_, ?_⟩ <;> simp [Shape.moveAssign, hdp]
    | some aOld =>
      have hne : a ≠ aOld := Ne.symm (hold aOld hdp)
      refine ⟨?_, ?_, ?_⟩ <;>
        simp [Shape.moveAssign, hdp, hsrc, Shape.drawOut,
          Shape.serializeOut, Shape.printOut, Heap.free, hne]

/-- C7 witness: move-assigning the sample Shape into an empty destination
preserves its draw output. -/
theorem c7_witness :
    (Shape.moveAssign ⟨none⟩ shape0 heap1).1.drawOut
        (Shape.moveAssign ⟨none⟩ shape0 heap1).2.2
      = shape0.drawOut heap1 :=
  ((c7_move_preserves_output shape0 heap1).2 ⟨none⟩ 0 rfl
      (fun _ hao => Option.noConfusion hao)).1

/-- C10: self-copy-assignment is safe: the clone is built from the source
holder before the old holder is released, so afterwards the Shape holds a
valid fresh holder and its draw, serialize and stream output are
unchanged. -/
theorem c10_self_copy_assignment_safe (s : Shape) (H : Heap) (a : Nat)
    (h : ShapeConcept) (hwf : H.wf) (hp : s.pimpl_ = some a)
    (hm : H.mem a = some h) :
    Shape.copyAssign s s H
        = some (⟨some H.next⟩, ((H.alloc h.clone).2).free a)
    ∧ (Shape.mk (some H.next)).pimpl_.isSome = true
    ∧ (Shape.mk (some H.next)).drawOut (((H.alloc h.clone).2).free a)
        = s.drawOut H
    ∧ (Shape.mk (some H.next)).serializeOut (((H.alloc h.clone).2).free a)
        = s.serializeOut H
    ∧ (Shape.mk (some H.next)).printOut (((H.alloc h.clone).2).free a)
        = s.printOut H := by
  have haN : a < H.next := Heap.lt_next_of_mem hwf hm
  have hNa : H.next ≠ a := (Nat.ne_of_lt haN).symm
  refine ⟨?_, rfl, ?_, ?_, ?_⟩
  · simp [Shape.copyAssign, hp, hm, Heap.alloc]
  · simp [Shape.drawOut, hp, hm, Heap.free, hNa, Heap.alloc,
      ShapeConcept.clone_self]
  · simp [Shape.serializeOut, hp, hm, Heap.free, hNa, Heap.alloc,
      ShapeConcept.clone_self]
  · simp [Shape.printOut, hp, hm, Heap.free, hNa, Heap.alloc,
      ShapeConcept.clone_self]

/-- C10 witness: self-copy-assignment of the sample Shape succeeds and
reinstalls a valid holder. -/
theorem c10_witness :
    heap1.wf
    ∧ Shape.copyAssign shape0 shape0 heap1
        = some (⟨some heap1.next⟩, ((heap1.alloc hCircle2.clone).2).free 0) :=
  ⟨heap1_wf,
   (c10_self_copy_assignment_safe shape0 heap1 0 hCircle2 heap1_wf
      rfl rfl).1⟩

end TypeErasure
